import Mathlib

/-!
# auto_trade_Boot — verification of the spec's claims against the scripts

Shallow embedding of the trading-bot scripts in
`src/alpaca/buckup/{1alpaca_bot,2paper,2lioneheart,Lioneheart1,Lioneheart3}.py`
and `src/questrade/{3,4,5}ques_trade.py`.

Python floats are modelled as rationals (`ℚ`): every arithmetic step the
claims exercise (sums of at most 50 prices, one division, rounding to four
decimal places, percentage thresholds) stays far from any binary rounding
boundary, so exact rational arithmetic decides the same way the float
arithmetic does. Broker calls (price fetches, order submissions) are
external collaborators; their outcomes enter the model as explicit inputs
(`Option ℚ` for a fetched price, a `Bool` for whether a submission
succeeded). Python exceptions are modelled with `Except` / explicit
outcome types.
-/

set_option maxRecDepth 10000

namespace AutoTradeBoot

/-- Exceptions of the Python runtime that the scripts can raise or catch. -/
inductive PyError where
  | jsonDecodeError
  | nameError
  deriving DecidableEq, Repr

/-- Trading decision of the signal evaluator for one asset in one cycle. -/
inductive Decision where
  | buy
  | sell
  | hold
  deriving DecidableEq, Repr

/-! ## Simple moving averages (2paper.py `calculate_sma`, 2lioneheart.py inline) -/

/-- Python slice `prices[-window:]` (for `window ≤ len(prices)`): the last
`window` elements of the list. -/
def lastN (l : List ℚ) (n : ℕ) : List ℚ := l.drop (l.length - n)

/-- `calculate_sma` of 2paper.py (lines 121-125):

    if len(prices) < window: return None
    return sum(prices[-window:]) / window

2lioneheart.py (lines 147-148) computes the same value inline:
`sum(prices[-10:]) / 10 if len(prices) >= 10 else None` (and with 50). -/
def calculate_sma (prices : List ℚ) (window : ℕ) : Option ℚ :=
  if prices.length < window then none
  else some ((lastN prices window).sum / window)

/-- Arithmetic mean of a list, as the spec words it ("arithmetic mean of the
last N closing prices"). -/
def mean (l : List ℚ) : ℚ := l.sum / l.length

/-- "The last `n` prices" as the spec words it: the final `n` entries of the
sequence, written independently of the Python slice (take `n` from the
reversed list, then reverse back). -/
def lastEntries (l : List ℚ) (n : ℕ) : List ℚ := (l.reverse.take n).reverse

theorem lastEntries_eq_lastN (l : List ℚ) (n : ℕ) : lastEntries l n = lastN l n := by
  rw [lastEntries, lastN, ← List.rtake_eq_reverse_take_reverse, List.rtake]

theorem length_lastEntries (l : List ℚ) (n : ℕ) (h : n ≤ l.length) :
    (lastEntries l n).length = n := by
  rw [lastEntries_eq_lastN, lastN, List.length_drop]
  omega

/-- For a window that fits, `calculate_sma` is the arithmetic mean of the
last `window` prices. -/
theorem calculate_sma_eq_mean (prices : List ℚ) (window : ℕ)
    (h : window ≤ prices.length) :
    calculate_sma prices window = some (mean (lastEntries prices window)) := by
  rw [calculate_sma, if_neg (by omega), mean, length_lastEntries prices window h,
    lastEntries_eq_lastN]

/-- C2. For every price sequence: length < 10 leaves the short SMA undefined;
length in [10, 50) defines the short SMA as the arithmetic mean of the last
10 prices while the long SMA stays undefined; length ≥ 50 defines the long
SMA as the mean of the last 50 prices. -/
theorem C2_sma_windows (ps : List ℚ) :
    (ps.length < 10 → calculate_sma ps 10 = none) ∧
    (10 ≤ ps.length → ps.length < 50 →
      calculate_sma ps 10 = some (mean (lastEntries ps 10)) ∧
      calculate_sma ps 50 = none) ∧
    (50 ≤ ps.length → calculate_sma ps 50 = some (mean (lastEntries ps 50))) := by
  refine ⟨fun h => ?_, fun h10 h50 => ⟨?_, ?_⟩, fun h => ?_⟩
  · rw [calculate_sma, if_pos h]
  · exact calculate_sma_eq_mean ps 10 h10
  · rw [calculate_sma, if_pos h50]
  · exact calculate_sma_eq_mean ps 50 h

/-- Witness for C2 at concrete price sequences of lengths 5, 12 and 50. -/
theorem C2_sma_windows_witness :
    calculate_sma (List.replicate 5 (3 : ℚ)) 10 = none ∧
    calculate_sma (List.replicate 12 (3 : ℚ)) 10
      = some (mean (lastEntries (List.replicate 12 (3 : ℚ)) 10)) ∧
    calculate_sma (List.replicate 12 (3 : ℚ)) 50 = none ∧
    calculate_sma (List.replicate 50 (3 : ℚ)) 50
      = some (mean (lastEntries (List.replicate 50 (3 : ℚ)) 50)) :=
  ⟨(C2_sma_windows (List.replicate 5 3)).1 (by decide),
   ((C2_sma_windows (List.replicate 12 3)).2.1 (by decide) (by decide)).1,
   ((C2_sma_windows (List.replicate 12 3)).2.1 (by decide) (by decide)).2,
   (C2_sma_windows (List.replicate 50 3)).2.2 (by decide)⟩

/-! ## Signal evaluator (2lioneheart.py and 2paper.py `evaluate_and_trade`) -/

/-- Per-asset decision of `evaluate_and_trade` in 2lioneheart.py
(lines 138-177), as a function of the fetched price history and of whether
the asset is already in `state["positions"]`:

    if not prices: continue                                  -- hold
    short_sma = sum(prices[-10:]) / 10 if len(prices) >= 10 else None
    long_sma  = sum(prices[-50:]) / 50 if len(prices) >= 50 else None
    if not short_sma or not long_sma: continue               -- hold
    if short_sma > long_sma and asset not in positions: buy
    elif short_sma < long_sma and asset in positions: sell

Note `if not short_sma or not long_sma` is a Python truthiness test: it
holds when an SMA is `None` and also when it is `0.0`, so a zero-valued
SMA falls into the "not enough data" branch. -/
def decide_2lioneheart (prices : List ℚ) (hasPosition : Bool) : Decision :=
  if prices.length = 0 then .hold
  else
    match calculate_sma prices 10, calculate_sma prices 50 with
    | some s, some l =>
      if s = 0 ∨ l = 0 then .hold
      else if s > l ∧ hasPosition = false then .buy
      else if s < l ∧ hasPosition = true then .sell
      else .hold
    | _, _ => .hold

/-- Per-asset decision of `evaluate_and_trade` in 2paper.py (lines 128-195).
Identical to `decide_2lioneheart` except for the cash gate that 2paper.py
places before BOTH branches (lines 151-153):

    if cash < TARGET_ALLOCATION: continue   -- TARGET_ALLOCATION = 20

so with less than $20 of cash neither a buy nor a sell happens. -/
def decide_2paper (prices : List ℚ) (cash : ℚ) (hasPosition : Bool) : Decision :=
  if prices.length = 0 then .hold
  else
    match calculate_sma prices 10, calculate_sma prices 50 with
    | some s, some l =>
      if s = 0 ∨ l = 0 then .hold
      else if cash < 20 then .hold
      else if s > l ∧ hasPosition = false then .buy
      else if s < l ∧ hasPosition = true then .sell
      else .hold
    | _, _ => .hold

/-- C1 counterexample. Two concrete refutations of the decision rule as the
claim states it.

First: 40 prices of 1 followed by 10 prices of 0. Both SMAs are defined
(length 50): the short SMA is 0 and the long SMA is 4/5, so the short SMA is
strictly below the long one and a position exists — the claim requires SELL —
yet both scripts HOLD, because `if not short_sma` treats the zero SMA as
missing data.

Second: 40 prices of 2 followed by 10 prices of 1 (short SMA 1, long SMA
9/5, both nonzero, short < long) with a position and $10 of cash — the claim
requires SELL, yet 2paper.py HOLDs because its cash gate (cash < 20)
precedes the sell branch. -/
theorem C1_counterexample :
    calculate_sma (List.replicate 40 (1 : ℚ) ++ List.replicate 10 0) 10 = some 0 ∧
    calculate_sma (List.replicate 40 (1 : ℚ) ++ List.replicate 10 0) 50 = some (4/5) ∧
    decide_2lioneheart (List.replicate 40 (1 : ℚ) ++ List.replicate 10 0) true = .hold ∧
    decide_2paper (List.replicate 40 (1 : ℚ) ++ List.replicate 10 0) 100 true = .hold ∧
    calculate_sma (List.replicate 40 (2 : ℚ) ++ List.replicate 10 1) 10 = some 1 ∧
    calculate_sma (List.replicate 40 (2 : ℚ) ++ List.replicate 10 1) 50 = some (9/5) ∧
    decide_2paper (List.replicate 40 (2 : ℚ) ++ List.replicate 10 1) 10 true = .hold := by
  with_unfolding_all decide

/-- C1 amended. BUY exactly when both SMAs are defined and nonzero, the short
SMA strictly exceeds the long SMA and no position exists; SELL exactly when
both SMAs are defined and nonzero, the short SMA is strictly below the long
SMA and a position exists; HOLD in every other case (equal SMAs, an undefined
SMA, and — by Python truthiness — a zero-valued SMA). In 2paper.py, BUY and
SELL additionally require at least $20 of available cash. -/
theorem C1_amended (ps : List ℚ) (pos : Bool) (cash : ℚ) :
    (decide_2lioneheart ps pos = .buy ↔
      ∃ s l, calculate_sma ps 10 = some s ∧ calculate_sma ps 50 = some l ∧
        s ≠ 0 ∧ l ≠ 0 ∧ s > l ∧ pos = false) ∧
    (decide_2lioneheart ps pos = .sell ↔
      ∃ s l, calculate_sma ps 10 = some s ∧ calculate_sma ps 50 = some l ∧
        s ≠ 0 ∧ l ≠ 0 ∧ s < l ∧ pos = true) ∧
    (decide_2paper ps cash pos = .buy ↔
      ∃ s l, calculate_sma ps 10 = some s ∧ calculate_sma ps 50 = some l ∧
        s ≠ 0 ∧ l ≠ 0 ∧ ¬ cash < 20 ∧ s > l ∧ pos = false) ∧
    (decide_2paper ps cash pos = .sell ↔
      ∃ s l, calculate_sma ps 10 = some s ∧ calculate_sma ps 50 = some l ∧
        s ≠ 0 ∧ l ≠ 0 ∧ ¬ cash < 20 ∧ s < l ∧ pos = true) := by
  unfold decide_2lioneheart decide_2paper
  by_cases hlen : ps.length = 0
  · have h10 : calculate_sma ps 10 = none := by rw [calculate_sma, if_pos (by omega)]
    simp [hlen, h10]
  · simp only [if_neg hlen]
    cases h10 : calculate_sma ps 10 with
    | none => simp [h10]
    | some s =>
      cases h50 : calculate_sma ps 50 with
      | none => simp
      | some l =>
        dsimp only
        refine ⟨⟨?_, ?_⟩, ⟨?_, ?_⟩, ⟨?_, ?_⟩, ⟨?_, ?_⟩⟩
        · intro hh
          split_ifs at hh with h1 h2
          rw [not_or] at h1
          exact ⟨s, l, rfl, rfl, h1.1, h1.2, h2.1, h2.2⟩
        · rintro ⟨s', l', hs, hl, hsne, hlne, hgt, hpos⟩
          injection hs with hs
          injection hl with hl
          cases hs; cases hl
          rw [if_neg (by tauto), if_pos ⟨hgt, hpos⟩]
        · intro hh
          split_ifs at hh with h1 h2 h3
          rw [not_or] at h1
          exact ⟨s, l, rfl, rfl, h1.1, h1.2, h3.1, h3.2⟩
        · rintro ⟨s', l', hs, hl, hsne, hlne, hlt, hpos⟩
          injection hs with hs
          injection hl with hl
          cases hs; cases hl
          have hngt : ¬ (s > l ∧ pos = false) := by
            rintro ⟨hgt, -⟩
            exact absurd hgt (not_lt.mpr hlt.le)
          rw [if_neg (by tauto), if_neg hngt, if_pos ⟨hlt, hpos⟩]
        · intro hh
          split_ifs at hh with h1 h2 h3
          rw [not_or] at h1
          exact ⟨s, l, rfl, rfl, h1.1, h1.2, h2, h3.1, h3.2⟩
        · rintro ⟨s', l', hs, hl, hsne, hlne, hcash, hgt, hpos⟩
          injection hs with hs
          injection hl with hl
          cases hs; cases hl
          rw [if_neg (by tauto), if_neg hcash, if_pos ⟨hgt, hpos⟩]
        · intro hh
          split_ifs at hh with h1 h2 h3 h4
          rw [not_or] at h1
          exact ⟨s, l, rfl, rfl, h1.1, h1.2, h2, h4.1, h4.2⟩
        · rintro ⟨s', l', hs, hl, hsne, hlne, hcash, hlt, hpos⟩
          injection hs with hs
          injection hl with hl
          cases hs; cases hl
          have hngt : ¬ (s > l ∧ pos = false) := by
            rintro ⟨hgt, -⟩
            exact absurd hgt (not_lt.mpr hlt.le)
          rw [if_neg (by tauto), if_neg hcash, if_neg hngt, if_pos ⟨hlt, hpos⟩]

/-! ## Rounding and order quantity (the `place_order` family) -/

/-- Python `round(x)` to the nearest integer, ties to even (banker's
rounding), on an exact rational. -/
def pyRoundInt (x : ℚ) : ℤ :=
  let f := ⌊x⌋
  let r := x - f
  if r < 1/2 then f
  else if 1/2 < r then f + 1
  else if f % 2 = 0 then f else f + 1

/-- Python `round(x, 4)`: round to four decimal places. -/
def round4 (x : ℚ) : ℚ := (pyRoundInt (x * 10000) : ℚ) / 10000

/-- `place_order` of 1alpaca_bot.py (lines 56-74), as a function of the
dollar allocation and the fetched price (`get_crypto_price` returns `None`
on a fetch error). Returns the quantity of the submitted market order,
`none` when the order is skipped:

    price = get_crypto_price(symbol)
    if not price: return            -- skips None and 0.0 (truthiness)
    qty = round(allocation / price, 4)
    ... submit_order(qty) ...
-/
def place_order_1alpaca (allocation : ℚ) (fetched : Option ℚ) : Option ℚ :=
  match fetched with
  | none => none
  | some price =>
    if price = 0 then none
    else some (round4 (allocation / price))

/-- `place_order` of 3ques_trade.py (lines 126-150). `get_asset_price`
returns 0 on a fetch error; `if price == 0: raise ValueError` aborts the
order (the exception is caught in the same function). A negative price
passes the guard:

    price = get_asset_price(symbol)
    if price == 0: raise ValueError("Invalid asset price.")
    qty = round(amount / price, 4)
-/
def place_order_3ques (amount : ℚ) (fetchedPrice : ℚ) : Option ℚ :=
  if fetchedPrice = 0 then none
  else some (round4 (amount / fetchedPrice))

/-- `place_order` of 4ques_trade.py (lines 128-147):

    price = get_symbol_price(symbol)      -- returns 0 on a fetch error
    if price <= 0: raise ValueError(...)  -- caught in the same function
    quantity = round(amount / price, 4)
-/
def place_order_4ques (amount : ℚ) (fetchedPrice : ℚ) : Option ℚ :=
  if fetchedPrice ≤ 0 then none
  else some (round4 (amount / fetchedPrice))

/-- `place_order` of 5ques_trade.py (lines 106-124):

    price = get_symbol_price(symbol)
    if price <= 0: return                 -- "Invalid price ... Skipping order."
    quantity = round(amount / price, 4)
-/
def place_order_5ques (amount : ℚ) (fetchedPrice : ℚ) : Option ℚ :=
  if fetchedPrice ≤ 0 then none
  else some (round4 (amount / fetchedPrice))

/-- Buy quantity of 2lioneheart.py `evaluate_and_trade` (line 159):
`qty = float(account.cash) / prices[-1]` — the whole cash balance divided by
the last price, with NO rounding. -/
def buy_qty_2lioneheart (cash lastPrice : ℚ) : ℚ := cash / lastPrice

theorem round4_example : round4 (20 / (33333/10000 : ℚ)) = 60001/10000 := by
  rw [round4, pyRoundInt]
  norm_num

/-- C3 counterexample. With allocation 20 and price 3.3333 the submitted
quantity is `round(20 / 3.3333, 4) = 6.0001` (the exact quotient is
6.000060000600006..., whose fifth decimal digit 6 rounds the fourth decimal
up), not 6.0 as the claim states. Moreover 2lioneheart.py, cited by the
claim, does not round at all and divides the whole cash balance by the
price. -/
theorem C3_counterexample :
    place_order_1alpaca 20 (some (33333/10000)) = some (60001/10000) ∧
    (60001/10000 : ℚ) ≠ 6 ∧
    buy_qty_2lioneheart 20 (33333/10000) = 200000/33333 ∧
    buy_qty_2lioneheart 20 (33333/10000) ≠ round4 (20 / (33333/10000 : ℚ)) := by
  refine ⟨?_, by norm_num, by rw [buy_qty_2lioneheart]; norm_num, ?_⟩
  · rw [place_order_1alpaca]
    rw [if_neg (by norm_num), round4_example]
  · rw [buy_qty_2lioneheart, round4_example]
    norm_num

/-- C3 amended. In every `place_order` variant (1alpaca_bot.py,
3ques_trade.py, 4ques_trade.py, 5ques_trade.py) the submitted quantity for a
non-skipped order equals allocation / price rounded to 4 decimal places; for
allocation 20 and price 3.3333 that quantity is 6.0001 (not 6.0). The buy
branch of 2lioneheart.py is the exception: it submits the unrounded quotient
cash / price. -/
theorem C3_amended (a p : ℚ) :
    (p ≠ 0 → place_order_1alpaca a (some p) = some (round4 (a / p))) ∧
    (p ≠ 0 → place_order_3ques a p = some (round4 (a / p))) ∧
    (0 < p → place_order_4ques a p = some (round4 (a / p))) ∧
    (0 < p → place_order_5ques a p = some (round4 (a / p))) ∧
    buy_qty_2lioneheart a p = a / p ∧
    place_order_1alpaca 20 (some (33333/10000)) = some (60001/10000) := by
  refine ⟨fun h => ?_, fun h => ?_, fun h => ?_, fun h => ?_, rfl, ?_⟩
  · rw [place_order_1alpaca]
    rw [if_neg h]
  · rw [place_order_3ques, if_neg h]
  · rw [place_order_4ques, if_neg (not_le.mpr h)]
  · rw [place_order_5ques, if_neg (not_le.mpr h)]
  · rw [place_order_1alpaca]
    rw [if_neg (by norm_num), round4_example]

/-- Witness for C3 at allocation 10 and price 2: every variant submits
`round(10 / 2, 4) = 5`. -/
theorem C3_amended_witness :
    place_order_1alpaca 10 (some 2) = some (round4 (10 / 2)) ∧
    place_order_3ques 10 2 = some (round4 (10 / 2)) ∧
    place_order_4ques 10 2 = some (round4 (10 / 2)) ∧
    place_order_5ques 10 2 = some (round4 (10 / 2)) :=
  ⟨(C3_amended 10 2).1 (by norm_num), (C3_amended 10 2).2.1 (by norm_num),
   (C3_amended 10 2).2.2.1 (by norm_num), (C3_amended 10 2).2.2.2.1 (by norm_num)⟩

/-! ## Take-profit / stop-loss (1alpaca_bot.py `check_take_profit_and_stop_loss`) -/

/-- Outcome of one tracked position in `check_take_profit_and_stop_loss`
(1alpaca_bot.py lines 76-97). -/
inductive TpSlAction where
  | sellTakeProfit
  | sellStopLoss
  | keep
  deriving DecidableEq, Repr

/-- One iteration of `check_take_profit_and_stop_loss` for a position with
the given entry price and the price fetched this cycle
(`get_crypto_price` returns `None` on error):

    current_price = get_crypto_price(symbol)
    if not current_price: continue        -- skips None and 0.0 (truthiness)
    profit_loss_percent = ((current_price - entry_price) / entry_price) * 100
    if profit_loss_percent >= TAKE_PROFIT_PERCENT:   # 10
        place_order(..., SELL); del positions[symbol]
    elif profit_loss_percent <= -STOP_LOSS_PERCENT:  # -5
        place_order(..., SELL); del positions[symbol]
-/
def check_position (entry_price : ℚ) (fetched : Option ℚ) : TpSlAction :=
  match fetched with
  | none => .keep
  | some current_price =>
    if current_price = 0 then .keep
    else
      let profit_loss_percent := ((current_price - entry_price) / entry_price) * 100
      if profit_loss_percent ≥ 10 then .sellTakeProfit
      else if profit_loss_percent ≤ -5 then .sellStopLoss
      else .keep

/-- C4 counterexample. A position with entry price 100 whose fetched current
price is 0 sits at an unrealized loss of −100%, far past the −5% stop-loss
threshold, yet the bot does not force a SELL: `if not current_price:
continue` treats the price 0.0 as a failed fetch and skips the position. -/
theorem C4_counterexample :
    check_position 100 (some 0) = .keep ∧
    ((0 - 100 : ℚ) / 100) * 100 ≤ -5 := by
  constructor
  · rw [check_position]
    dsimp only
    rw [if_pos rfl]
  · norm_num

/-- C4 amended. For every tracked position with positive entry price e and
fetched nonzero current price p, the bot forces a SELL exactly when
((p − e) / e) · 100 ≥ 10 (take-profit) or ≤ −5 (stop-loss); a fetched price
of exactly 0 is treated as a failed fetch (Python truthiness) and forces
nothing. In particular entry 100 / price 111 forces the take-profit SELL,
entry 100 / price 94 forces the stop-loss SELL, and entry 100 / price 105
forces no override. -/
theorem C4_amended :
    (∀ e p : ℚ, 0 < e → p ≠ 0 →
      (check_position e (some p) ≠ .keep ↔
        ((p - e) / e) * 100 ≥ 10 ∨ ((p - e) / e) * 100 ≤ -5)) ∧
    check_position 100 (some 111) = .sellTakeProfit ∧
    check_position 100 (some 94) = .sellStopLoss ∧
    check_position 100 (some 105) = .keep := by
  have key : ∀ e p : ℚ, p ≠ 0 →
      check_position e (some p)
        = if ((p - e) / e) * 100 ≥ 10 then .sellTakeProfit
          else if ((p - e) / e) * 100 ≤ -5 then .sellStopLoss
          else .keep := by
    intro e p hp
    rw [check_position]
    dsimp only
    rw [if_neg hp]
  refine ⟨fun e p he hp => ?_, ?_, ?_, ?_⟩
  · rw [key e p hp]
    split_ifs with h1 h2
    · simp only [ne_eq]
      constructor
      · intro _
        exact Or.inl h1
      · intro _ hh
        cases hh
    · simp only [ne_eq]
      constructor
      · intro _
        exact Or.inr h2
      · intro _ hh
        cases hh
    · simp only [ne_eq, not_true_eq_false, false_iff, not_or, not_le]
      push_neg at h1 h2
      exact ⟨h1, h2⟩
  · rw [key 100 111 (by norm_num)]
    norm_num
  · rw [key 100 94 (by norm_num)]
    norm_num
  · rw [key 100 105 (by norm_num)]
    norm_num

/-- Witness for C4 at entry price 100 and fetched price 111: the action is
not `keep` and the +11% gain clears the +10% take-profit threshold. -/
theorem C4_amended_witness :
    (0 : ℚ) < 100 ∧ (111 : ℚ) ≠ 0 ∧
    (check_position 100 (some 111) ≠ .keep ↔
      ((111 - 100 : ℚ) / 100) * 100 ≥ 10 ∨ ((111 - 100 : ℚ) / 100) * 100 ≤ -5) :=
  ⟨by norm_num, by norm_num, C4_amended.1 100 111 (by norm_num) (by norm_num)⟩

/-! ## State file: loading, saving, JSON round trip -/

/-- One open holding as persisted in the state file:
`{"qty": ..., "entry_price": ...}`. -/
structure Position where
  qty : ℚ
  entry_price : ℚ
  deriving DecidableEq, Repr

/-- The positions mapping of the state snapshot: symbol → Position.
A Python dict is modelled as an association list (keys unique by
construction of the dict). -/
abbrev PosMap := List (String × Position)

/-- A JSON value, to the depth the state document needs. `json.dump` and
`json.load` are the (black-box) printer/parser pair of the standard
library; their composition is the identity on documents produced by
`json.dump`, so the file is modelled at the level of this AST. -/
inductive Json where
  | jnum (q : ℚ) : Json
  | jstr (s : String) : Json
  | jobj (fields : List (String × Json)) : Json

/-- What reading the state file can yield: the file is absent, its content
is not valid JSON, or it parses to a JSON document. -/
inductive FileContent where
  | missing
  | invalid
  | valid (doc : Json)

/-- Encoding of one position as written by `json.dump`
(2paper.py `save_state`, line 167 builds `{"qty": qty, "entry_price": ...}`). -/
def encodePosition (p : Position) : Json :=
  .jobj [("qty", .jnum p.qty), ("entry_price", .jnum p.entry_price)]

/-- The whole state document `{"positions": {symbol: {...}, ...}}` that
2paper.py `save_state` (lines 73-80) writes. -/
def encodeState (m : PosMap) : Json :=
  .jobj [("positions", .jobj (m.map fun kv => (kv.1, encodePosition kv.2)))]

/-- Reading one position record back out of the parsed JSON
(`position["qty"]`, `position["entry_price"]`). -/
def decodePosition : Json → Option Position
  | .jobj [("qty", .jnum q), ("entry_price", .jnum e)] => some ⟨q, e⟩
  | _ => none

/-- Reading the positions mapping back out of the parsed JSON. -/
def decodePositions : Json → Option PosMap
  | .jobj fields =>
    fields.foldr (fun kv acc =>
      match acc, decodePosition kv.2 with
      | some m, some p => some ((kv.1, p) :: m)
      | _, _ => none) (some [])
  | _ => none

/-- Reading the state document (`state["positions"]`). -/
def decodeState : Json → Option PosMap
  | .jobj [("positions", p)] => decodePositions p
  | _ => none

/-- `load_state` of 2paper.py (lines 58-70): a missing file
(`FileNotFoundError`) and a corrupt file (`json.JSONDecodeError`) both
yield the fresh empty state `{"positions": {}}`; a parsed file is returned
as-is. 2lioneheart.py `load_state` (lines 65-77) is identical. -/
def load_state_2paper : FileContent → Json
  | .missing => .jobj [("positions", .jobj [])]
  | .invalid => .jobj [("positions", .jobj [])]
  | .valid doc => doc

/-- `load_state` of Lioneheart1.py (lines 51-57): ONLY `FileNotFoundError`
is caught (yielding `{"invested_assets": {}}`); a file whose content is not
valid JSON raises `json.JSONDecodeError`, which propagates to the caller.
Lioneheart3.py `load_state` (lines 96-102) is identical. -/
def load_state_lioneheart1 : FileContent → Except PyError Json
  | .missing => .ok (.jobj [("invested_assets", .jobj [])])
  | .invalid => .error .jsonDecodeError
  | .valid doc => .ok doc

/-- C5 counterexample. The claim says loading the state never raises for any
state-file content. In Lioneheart1.py a state file whose content is not
valid JSON raises `json.JSONDecodeError` (only `FileNotFoundError` is
handled), so loading is not total across the scripts the claim covers. -/
theorem C5_counterexample :
    load_state_lioneheart1 .invalid = .error .jsonDecodeError := rfl

/-- C5 amended. In 2paper.py (and 2lioneheart.py) `load_state` is total: a
missing state file and a corrupt state file both yield the empty position
set. In Lioneheart1.py (and Lioneheart3.py) only a missing file yields the
empty state; a corrupt file raises `json.JSONDecodeError`. -/
theorem C5_amended :
    load_state_2paper .missing = encodeState [] ∧
    load_state_2paper .invalid = encodeState [] ∧
    decodeState (load_state_2paper .missing) = some [] ∧
    decodeState (load_state_2paper .invalid) = some [] ∧
    load_state_lioneheart1 .missing = .ok (.jobj [("invested_assets", .jobj [])]) ∧
    load_state_lioneheart1 .invalid = .error .jsonDecodeError :=
  ⟨rfl, rfl, rfl, rfl, rfl, rfl⟩

theorem decodePositions_encode (m : PosMap) :
    decodePositions (.jobj (m.map fun kv => (kv.1, encodePosition kv.2))) = some m := by
  rw [decodePositions]
  induction m with
  | nil => rfl
  | cons kv rest ih =>
    simp only [List.map_cons, List.foldr_cons, ih]
    rfl

/-- C6. Saving a state snapshot and re-loading it is the identity on the
position mapping: `save_state` (2paper.py lines 73-80) writes
`{"positions": {symbol: {"qty": ..., "entry_price": ...}, ...}}` and
`load_state` (lines 58-70) parses it back to the same symbols, quantities
and entry prices — in particular for the single position
BCH/USD {qty 0.5, entry_price 300}. -/
theorem C6_state_roundtrip :
    (∀ m : PosMap,
      decodeState (load_state_2paper (.valid (encodeState m))) = some m) ∧
    decodeState (load_state_2paper
        (.valid (encodeState [("BCH/USD", ⟨1/2, 300⟩)])))
      = some [("BCH/USD", ⟨1/2, 300⟩)] := by
  have h : ∀ m : PosMap,
      decodeState (load_state_2paper (.valid (encodeState m))) = some m := by
    intro m
    rw [load_state_2paper, encodeState, decodeState]
    exact decodePositions_encode m
  exact ⟨h, h _⟩

/-! ## Trade execution and state persistence (2paper.py `evaluate_and_trade`) -/

/-- Does the positions dict contain the key? (`asset in state["positions"]`). -/
def hasKey (m : PosMap) (k : String) : Bool := (m.lookup k).isSome

/-- `state["positions"].pop(asset)`: remove the key from the dict. -/
def removeKey (m : PosMap) (k : String) : PosMap := m.filter (fun kv => kv.1 != k)

/-- `state["positions"][asset] = v`: dict assignment (update in place, or
append a fresh key). -/
def setKey (m : PosMap) (k : String) (v : Position) : PosMap :=
  if hasKey m k then m.map (fun kv => if kv.1 = k then (k, v) else kv)
  else m ++ [(k, v)]

/-- The in-memory positions dict together with what the state file holds. -/
structure CycleState where
  mem : PosMap
  disk : PosMap
  deriving DecidableEq, Repr

/-- One asset's branch of `evaluate_and_trade` in 2paper.py (lines 155-193),
with `submitOk` the outcome of `api.submit_order` (false = it raised).

BUY (lines 155-172): submit the order; ON SUCCESS add the position to the
dict and `save_state`; on exception only log — state untouched.

SELL (lines 174-190): `position = state["positions"].pop(asset)` removes the
position from the in-memory dict BEFORE submitting; on success `save_state`;
on exception only log — the pop is NOT undone.

The buy quantity (line 157) is
`round(cash / prices[-1], 4) if cash < TARGET_ALLOCATION else
round(TARGET_ALLOCATION / prices[-1], 4)` (the first arm is dead code:
`cash < 20` was already skipped at line 151). -/
def process_asset_2paper (asset : String) (prices : List ℚ) (cash : ℚ)
    (submitOk : Bool) (st : CycleState) : CycleState :=
  match decide_2paper prices cash (hasKey st.mem asset) with
  | .buy =>
    let lastPrice := prices.getLastD 0
    let qty := if cash < 20 then round4 (cash / lastPrice) else round4 (20 / lastPrice)
    if submitOk then
      let mem2 := setKey st.mem asset ⟨qty, lastPrice⟩
      ⟨mem2, mem2⟩
    else st
  | .sell =>
    let mem2 := removeKey st.mem asset
    if submitOk then ⟨mem2, mem2⟩ else ⟨mem2, st.disk⟩
  | .hold => st

/-- The unconditional `save_state(state)` that ends every
`evaluate_and_trade` cycle (2paper.py line 195). -/
def finish_cycle_2paper (st : CycleState) : CycleState := ⟨st.mem, st.mem⟩

/-- The buy loop of `main` in 1alpaca_bot.py (lines 109-119), for one asset
with the price fetched by `get_crypto_price` (`None` on error). There is no
state file in this script; `positions` is the in-memory dict only. The dict
is updated BEFORE `place_order` is called, and `place_order` catches every
exception it raises internally (lines 73-74), so the recorded position does
not depend on whether the order submission succeeds — `submitOk` is
deliberately unused:

    if asset in positions: continue
    price = get_crypto_price(asset)
    if price:                                    -- truthiness: skips None and 0.0
        qty = round(ALLOCATION / price, 4)       -- ALLOCATION = 10
        positions[asset] = {"entry_price": price, "qty": qty}
        place_order(asset, ALLOCATION, OrderSide.BUY)
-/
def process_asset_1alpaca (asset : String) (allocation : ℚ) (fetched : Option ℚ)
    (submitOk : Bool) (m : PosMap) : PosMap :=
  if hasKey m asset then m
  else
    match fetched with
    | none => m
    | some price =>
      if price = 0 then m
      else setKey m asset ⟨round4 (allocation / price), price⟩

/-- C7 counterexample. Two cited scripts refute the claim that the position
set after a failed submission equals the one before the attempt.

2paper.py, failed SELL: with the position BCH/USD {qty 0.5, entry 300} held,
prices giving a sell signal (short SMA 1 < long SMA 9/5), $25 of cash and a
failing `submit_order`, the cycle ends with the position gone from BOTH the
in-memory dict (popped before the submit) and the state file (the
unconditional end-of-cycle `save_state`).

1alpaca_bot.py, failed BUY: with no position held and fetched price 2, the
position DOGE/USD {qty round(10/2, 4) = 5, entry 2} is recorded in the
in-memory dict before `place_order` runs, and stays recorded when the
submission fails. -/
theorem C7_counterexample :
    (finish_cycle_2paper (process_asset_2paper "BCH/USD"
        (List.replicate 40 2 ++ List.replicate 10 1) 25 false
        ⟨[("BCH/USD", ⟨1/2, 300⟩)], [("BCH/USD", ⟨1/2, 300⟩)]⟩)
      = ⟨[], []⟩ ∧
     decide_2paper (List.replicate 40 2 ++ List.replicate 10 1) 25 true = .sell ∧
     ([("BCH/USD", (⟨1/2, 300⟩ : Position))] : PosMap) ≠ []) ∧
    process_asset_1alpaca "DOGE/USD" 10 (some 2) false []
      = [("DOGE/USD", ⟨5, 2⟩)] ∧
    ([("DOGE/USD", (⟨5, 2⟩ : Position))] : PosMap) ≠ [] := by
  refine ⟨by with_unfolding_all decide, ?_, by with_unfolding_all decide⟩
  have h5 : round4 ((10 : ℚ) / 2) = 5 := by
    rw [round4, pyRoundInt]
    norm_num
  rw [process_asset_1alpaca]
  rw [if_neg (by with_unfolding_all decide)]
  rw [if_neg (by norm_num), h5]
  rfl

/-- C7 amended. In 2paper.py, starting a cycle with the state file in sync
with the in-memory dict: a BUY whose submission fails leaves both unchanged
and a HOLD changes nothing, while a SELL — whether the submission succeeds
or fails — ends the cycle with the position removed from the in-memory dict
and, through the unconditional end-of-cycle save, from the state file
(the pop at line 176 precedes the submit and is never undone); a successful
BUY persists the added position. In 1alpaca_bot.py the main loop records
the position in its in-memory dict BEFORE calling `place_order`, and
`place_order` swallows its own failures, so the recorded position is
independent of the submission outcome. -/
theorem C7_amended (asset : String) (prices : List ℚ) (cash allocation p : ℚ)
    (m : PosMap) (submitOk : Bool) :
    (decide_2paper prices cash (hasKey m asset) = .buy →
      finish_cycle_2paper (process_asset_2paper asset prices cash false ⟨m, m⟩)
        = ⟨m, m⟩) ∧
    (decide_2paper prices cash (hasKey m asset) = .hold →
      finish_cycle_2paper (process_asset_2paper asset prices cash false ⟨m, m⟩)
        = ⟨m, m⟩) ∧
    (decide_2paper prices cash (hasKey m asset) = .sell →
      finish_cycle_2paper (process_asset_2paper asset prices cash submitOk ⟨m, m⟩)
        = ⟨removeKey m asset, removeKey m asset⟩) ∧
    (decide_2paper prices cash (hasKey m asset) = .buy →
      finish_cycle_2paper (process_asset_2paper asset prices cash true ⟨m, m⟩)
        = ⟨setKey m asset ⟨if cash < 20 then round4 (cash / prices.getLastD 0)
              else round4 (20 / prices.getLastD 0), prices.getLastD 0⟩,
           setKey m asset ⟨if cash < 20 then round4 (cash / prices.getLastD 0)
              else round4 (20 / prices.getLastD 0), prices.getLastD 0⟩⟩) ∧
    (hasKey m asset = false → p ≠ 0 →
      process_asset_1alpaca asset allocation (some p) submitOk m
        = setKey m asset ⟨round4 (allocation / p), p⟩) ∧
    (process_asset_1alpaca asset allocation none submitOk m = m) := by
  refine ⟨fun h => ?_, fun h => ?_, fun h => ?_, fun h => ?_,
    fun hk hp => ?_, ?_⟩
  · simp only [process_asset_2paper, finish_cycle_2paper, h]
    try rfl
  · simp only [process_asset_2paper, finish_cycle_2paper, h]
    try rfl
  · cases submitOk <;> simp only [process_asset_2paper, finish_cycle_2paper, h] <;>
      try rfl
  · simp only [process_asset_2paper, finish_cycle_2paper, h]
    try rfl
  · rw [process_asset_1alpaca]
    rw [if_neg (by rw [hk]; intro hh; cases hh)]
    rw [if_neg hp]
  · rw [process_asset_1alpaca]
    split <;> rfl

/-- Witness for C7 at concrete cycles: a failing sell in 2paper.py (position
held, short SMA 1 below long SMA 9/5), a failing buy in 2paper.py (no
position, short SMA 2 above long SMA 6/5), a hold (no price data), and a
failing buy in 1alpaca_bot.py (no position, fetched price 2). -/
theorem C7_amended_witness :
    finish_cycle_2paper (process_asset_2paper "BCH/USD"
        (List.replicate 40 2 ++ List.replicate 10 1) 25 false
        ⟨[("BCH/USD", ⟨1/2, 300⟩)], [("BCH/USD", ⟨1/2, 300⟩)]⟩)
      = ⟨removeKey [("BCH/USD", ⟨1/2, 300⟩)] "BCH/USD",
         removeKey [("BCH/USD", ⟨1/2, 300⟩)] "BCH/USD"⟩ ∧
    finish_cycle_2paper (process_asset_2paper "BCH/USD"
        (List.replicate 40 1 ++ List.replicate 10 2) 25 false ⟨[], []⟩)
      = ⟨[], []⟩ ∧
    finish_cycle_2paper (process_asset_2paper "BCH/USD" [] 25 false ⟨[], []⟩)
      = ⟨[], []⟩ ∧
    process_asset_1alpaca "DOGE/USD" 10 (some 2) false []
      = setKey [] "DOGE/USD" ⟨round4 (10 / 2), 2⟩ :=
  ⟨(C7_amended "BCH/USD" (List.replicate 40 2 ++ List.replicate 10 1) 25 10 2
      [("BCH/USD", ⟨1/2, 300⟩)] false).2.2.1 (by with_unfolding_all decide),
   (C7_amended "BCH/USD" (List.replicate 40 1 ++ List.replicate 10 2) 25 10 2
      [] false).1 (by with_unfolding_all decide),
   (C7_amended "BCH/USD" [] 25 10 2 [] false).2.1 (by with_unfolding_all decide),
   (C7_amended "DOGE/USD" [] 25 10 2 [] false).2.2.2.2.1
      (by with_unfolding_all decide) (by norm_num)⟩

/-! ## Polling loops: what one iteration does with an exception -/

/-- What happens inside one execution of a polling-loop body, as seen from
the loop wrapper: the body runs to completion (including its in-body sleep),
raises some exception before the sleep finishes, or receives a keyboard
interrupt. -/
inductive BodyEvent where
  | completes
  | raisesBeforeSleep
  | keyboardInterrupt
  deriving DecidableEq, Repr

/-- What the loop wrapper then does: continue to the next iteration (having
slept the fixed interval or not), stop the loop orderly (`break`), or let
the exception propagate out of the loop. -/
inductive IterResult where
  | continued (slept : Bool)
  | stopped
  | propagated
  deriving DecidableEq, Repr

/-- Loop wrapper of 1alpaca_bot.py `main` (lines 103-128):
`except KeyboardInterrupt: break`; `except Exception: log;
sleep(CHECK_INTERVAL)` — the handler itself sleeps, so the interval is never
skipped. 2paper.py `main` (lines 206-217), 2lioneheart.py `main`
(lines 185-202), Lioneheart1.py `run_bot` (lines 131-142) and
Lioneheart3.py `run_bot` (lines 178-189) have the same shape. -/
def iter_1alpaca : BodyEvent → IterResult
  | .completes => .continued true
  | .raisesBeforeSleep => .continued true
  | .keyboardInterrupt => .stopped

/-- Loop wrapper of 3ques_trade.py `run_bot` (lines 197-217): the `while
True:` body has NO try/except at all — an exception raised in the loop body
(and a keyboard interrupt) propagates out of the loop. -/
def iter_3ques : BodyEvent → IterResult
  | .completes => .continued true
  | .raisesBeforeSleep => .propagated
  | .keyboardInterrupt => .propagated

/-- Loop wrapper of 4ques_trade.py `run_bot` (lines 171-183):
`except KeyboardInterrupt: break`; `except Exception: log` — the
`sleep(3600)` sits INSIDE the try, so an exception skips the sleep and the
next iteration starts immediately. -/
def iter_4ques : BodyEvent → IterResult
  | .completes => .continued true
  | .raisesBeforeSleep => .continued false
  | .keyboardInterrupt => .stopped

/-- Loop wrapper of 5ques_trade.py `run_bot` (lines 176-192): same shape as
4ques_trade.py — the handler logs but does not sleep. -/
def iter_5ques : BodyEvent → IterResult
  | .completes => .continued true
  | .raisesBeforeSleep => .continued false
  | .keyboardInterrupt => .stopped

/-- C8 counterexample. The claim (catch at top level, log, sleep the fixed
interval, continue; never propagate, never skip the sleep) fails on two of
its three cited loops: in 4ques_trade.py a caught exception skips the sleep
(the `sleep(3600)` is inside the try and the handler does not sleep), and in
3ques_trade.py there is no top-level handler at all, so the exception
propagates out of the loop. -/
theorem C8_counterexample :
    iter_4ques .raisesBeforeSleep = .continued false ∧
    iter_4ques .raisesBeforeSleep ≠ .continued true ∧
    iter_3ques .raisesBeforeSleep = .propagated ∧
    iter_3ques .raisesBeforeSleep ≠ .continued true := by
  refine ⟨rfl, ?_, rfl, ?_⟩ <;> intro h <;> cases h

/-- C8 amended. In the Alpaca-family loops (1alpaca_bot.py, and identically
2paper.py, 2lioneheart.py, Lioneheart1.py, Lioneheart3.py) an exception in
the loop body is caught at the top level, logged, and the loop sleeps the
fixed interval before continuing. In 4ques_trade.py and 5ques_trade.py the
exception is caught and logged but the sleep is skipped. In 3ques_trade.py
the loop body has no top-level handler and the exception propagates out of
the loop. Only the loops with handlers stop orderly on keyboard interrupt. -/
theorem C8_amended :
    iter_1alpaca .raisesBeforeSleep = .continued true ∧
    iter_4ques .raisesBeforeSleep = .continued false ∧
    iter_5ques .raisesBeforeSleep = .continued false ∧
    iter_3ques .raisesBeforeSleep = .propagated ∧
    iter_1alpaca .completes = .continued true ∧
    iter_3ques .completes = .continued true ∧
    iter_4ques .completes = .continued true ∧
    iter_5ques .completes = .continued true ∧
    iter_1alpaca .keyboardInterrupt = .stopped ∧
    iter_4ques .keyboardInterrupt = .stopped ∧
    iter_5ques .keyboardInterrupt = .stopped ∧
    iter_3ques .keyboardInterrupt = .propagated :=
  ⟨rfl, rfl, rfl, rfl, rfl, rfl, rfl, rfl, rfl, rfl, rfl, rfl⟩

/-! ## 5ques_trade.py: the profit-target loop (C9) -/

/-- `calculate_portfolio_profit`, called at 5ques_trade.py line 179, is
defined NOWHERE in the repository: evaluating the name at runtime raises
`NameError`. -/
def calculate_portfolio_profit : Except PyError ℚ := .error .nameError

/-- Environment of one iteration of `run_bot` in 5ques_trade.py: the market
gate `is_trading_time()` outcome, or a keyboard interrupt delivered during
the iteration. -/
inductive LoopEvent5 where
  | marketClosed
  | trading
  | keyboardInterrupt
  deriving DecidableEq, Repr

/-- Result of one iteration of `run_bot` in 5ques_trade.py. -/
inductive StepResult5 where
  | continued (total : ℚ) (slept : Bool)
  | stoppedManual
  | stoppedProfit (total : ℚ)
  deriving DecidableEq, Repr

/-- One iteration of the `while True:` loop of `run_bot` in 5ques_trade.py
(lines 176-192), carrying the accumulated `total_profit`:

    if is_trading_time():
        total_profit += calculate_portfolio_profit(account_id)   # NameError
        if total_profit >= PROFIT_TARGET:     # 1000
            ...; break
        manage_positions(account_id)          # may raise (restRaises)
        rebalance_portfolio(account_id)
    else:
        log("Market is closed...")
    sleep(3600)
    except KeyboardInterrupt: break
    except Exception: log                     # no sleep

`restRaises` records whether `manage_positions` / `rebalance_portfolio`
would raise (their `send_request` re-raises on error); it is dead in
practice because `calculate_portfolio_profit` raises first. -/
def run_bot_step_5ques (ev : LoopEvent5) (restRaises : Bool) (total : ℚ) :
    StepResult5 :=
  match ev with
  | .keyboardInterrupt => .stoppedManual
  | .marketClosed => .continued total true
  | .trading =>
    match calculate_portfolio_profit with
    | .error _ => .continued total false
    | .ok delta =>
      let total2 := total + delta
      if total2 ≥ 1000 then .stoppedProfit total2
      else if restRaises then .continued total2 false
      else .continued total2 true

/-- C9. The loop of 5ques_trade.py can never stop through the profit
target: `calculate_portfolio_profit` is not defined anywhere in the
repository, so every trading-hours iteration raises `NameError` before the
accumulated profit is updated or compared; the catch-all handler logs it
(and skips the sleep) and the loop goes on with `total_profit` unchanged.
The only terminal state every iteration can reach is the manual
interruption. -/
theorem C9_profit_target_unreachable :
    (∀ (ev : LoopEvent5) (r : Bool) (total t : ℚ),
      run_bot_step_5ques ev r total ≠ .stoppedProfit t) ∧
    (∀ (r : Bool) (total : ℚ),
      run_bot_step_5ques .trading r total = .continued total false) ∧
    (∀ (ev : LoopEvent5) (r : Bool) (total : ℚ),
      run_bot_step_5ques ev r total = .stoppedManual ↔ ev = .keyboardInterrupt) := by
  refine ⟨fun ev r total t => ?_, fun r total => rfl, fun ev r total => ?_⟩
  · cases ev <;> intro h <;> cases h
  · cases ev <;> constructor <;> intro h <;> first | rfl | cases h

/-! ## Price guards before the quantity division (C10) -/

/-- C10 counterexample. The claim says every script skips the order for a
missing or NON-POSITIVE price. In 1alpaca_bot.py the guard is `if not
price:` and in 3ques_trade.py it is `if price == 0:` — a strictly negative
fetched price passes both guards, the quantity is computed from it
(round(10 / −2, 4) = −5) and the order is submitted. -/
theorem C10_counterexample :
    place_order_1alpaca 10 (some (-2)) = some (-5) ∧
    place_order_3ques 10 (-2) = some (-5) ∧
    ((-2 : ℚ) ≤ 0) := by
  refine ⟨?_, ?_, by norm_num⟩
  · rw [place_order_1alpaca]
    rw [if_neg (by norm_num), round4, pyRoundInt]
    norm_num
  · rw [place_order_3ques, if_neg (by norm_num), round4, pyRoundInt]
    norm_num

/-- C10 amended. A missing (None) or zero fetched price causes the order to
be skipped before the quantity division in every script; 4ques_trade.py and
5ques_trade.py additionally skip every negative price (`if price <= 0`), but
in 1alpaca_bot.py (`if not price`) and 3ques_trade.py (`if price == 0`) a
strictly negative fetched price passes the guard, the quantity is computed
from it and the order is submitted. -/
theorem C10_amended (a p : ℚ) :
    place_order_1alpaca a none = none ∧
    place_order_1alpaca a (some 0) = none ∧
    place_order_3ques a 0 = none ∧
    (p ≤ 0 → place_order_4ques a p = none) ∧
    (p ≤ 0 → place_order_5ques a p = none) ∧
    (p < 0 → place_order_1alpaca a (some p) = some (round4 (a / p))) ∧
    (p < 0 → place_order_3ques a p = some (round4 (a / p))) := by
  refine ⟨rfl, ?_, ?_, fun h => ?_, fun h => ?_, fun h => ?_, fun h => ?_⟩
  · rw [place_order_1alpaca]
    rw [if_pos rfl]
  · rw [place_order_3ques, if_pos rfl]
  · rw [place_order_4ques, if_pos h]
  · rw [place_order_5ques, if_pos h]
  · rw [place_order_1alpaca]
    rw [if_neg (ne_of_lt h)]
  · rw [place_order_3ques, if_neg (ne_of_lt h)]

/-- Witness for C10 at allocation 10 and price −2: the Questrade variants
skip the order, the 1alpaca/3ques variants compute the quantity from the
negative price. -/
theorem C10_amended_witness :
    place_order_4ques 10 (-2) = none ∧
    place_order_5ques 10 (-2) = none ∧
    place_order_1alpaca 10 (some (-2)) = some (round4 (10 / (-2 : ℚ))) ∧
    place_order_3ques 10 (-2) = some (round4 (10 / (-2 : ℚ))) :=
  ⟨(C10_amended 10 (-2)).2.2.2.1 (by norm_num),
   (C10_amended 10 (-2)).2.2.2.2.1 (by norm_num),
   (C10_amended 10 (-2)).2.2.2.2.2.1 (by norm_num),
   (C10_amended 10 (-2)).2.2.2.2.2.2 (by norm_num)⟩

end AutoTradeBoot
